import Mathlib

/-!
Verification of the trip-lifecycle and itinerary-aggregation logic of the
`nlw-journey-trilha-go` HTTP API (package `internal/api`).

The Go handlers are shallowly embedded: slices become `GoSlice` (so that the
nil slice / empty slice distinction and out-of-range panics are visible),
timestamps become `Int`, UUIDs become `Nat`, and the persistence gateway
(`pgstore`) becomes explicit state passing over `StoreState`.  A Go panic is
modelled as `Option.none` in the result of the function that can panic.
-/

set_option autoImplicit false

namespace NlwJourney

/-- A Go slice: `none` is the nil slice (`var s []T`), `some xs` a non-nil
slice with the given elements.  `len`, indexing and `append` behave as in Go:
`len(nil) = 0`, `append(nil, x)` allocates, indexing the nil slice or past the
length panics (modelled by `Option.none` from `goGet`). -/
abbrev GoSlice (α : Type) : Type := Option (List α)

namespace GoSlice

/-- The nil slice, `var s []T`. -/
def nil {α : Type} : GoSlice α := none

/-- The empty non-nil slice literal `[]T{}`. -/
def empty {α : Type} : GoSlice α := some []

/-- The elements of a slice; the nil slice has no elements. -/
def toList {α : Type} (s : GoSlice α) : List α := s.getD []

/-- Go `len(s)`. -/
def goLen {α : Type} (s : GoSlice α) : Nat := s.toList.length

/-- Go `append(s, a)`: always yields a non-nil slice. -/
def goAppend {α : Type} (s : GoSlice α) (a : α) : GoSlice α :=
  some (s.toList ++ [a])

/-- Go `s[i]`: `none` models the index-out-of-range panic. -/
def goGet {α : Type} (s : GoSlice α) (i : Nat) : Option α := s.toList.get? i

theorem toList_goAppend {α : Type} (s : GoSlice α) (a : α) :
    (s.goAppend a).toList = s.toList ++ [a] := rfl

theorem goLen_goAppend {α : Type} (s : GoSlice α) (a : α) :
    (s.goAppend a).goLen = s.goLen + 1 := by
  simp [goLen, toList_goAppend]

end GoSlice

/-! ## Data model (from `internal/pgstore` rows as used by the handlers) -/

/-- A row of the `trips` table as the handlers read it
(`pgstore.Trip`: id, destination, owner fields elided, starts_at, ends_at,
is_confirmed). -/
structure Trip where
  id : Nat
  destination : String
  startsAt : Int
  endsAt : Int
  isConfirmed : Bool
  deriving DecidableEq, Repr

/-- A row of the `participants` table (`pgstore.Participant`). -/
structure Participant where
  id : Nat
  tripId : Nat
  email : String
  isConfirmed : Bool
  isOwner : Bool
  deriving DecidableEq, Repr

/-- One activity as projected into
`spec.GetTripActivitiesResponseInnerArray` by the first loop of
`GetTripsTripIDActivities` (ID, Title, OccursAt). -/
structure ActivityRec where
  id : Nat
  title : String
  occursAt : Int
  deriving DecidableEq, Repr

/-- One element of `spec.GetTripActivitiesResponseOuterArray`: a date and the
inner activities slice (the inner slice is built by `append` from nil, so it
stays nil when no activity matches). -/
structure DateGroup where
  date : Int
  activities : GoSlice ActivityRec
  deriving DecidableEq, Repr

/-! ## Itinerary aggregation (`GetTripsTripIDActivities`)

The handler runs three loops after fetching the activities:
1. project the rows into `responseActs`;
2. scan `responseActs`, appending a date to `responseActsDates` at `j = 0`
   and, for `j ≥ 1`, whenever `responseActsDates[j-1] != responseActs[j].OccursAt`
   (note: the index is into the *dates* slice — this access can go out of
   range and panic);
3. for each collected date, gather every activity whose `OccursAt` equals it.
-/

/-- Loop 1 of the handler: build `responseActs` by appending each projected
row to a nil slice. -/
def buildResponseActs (acts : List ActivityRec) : GoSlice ActivityRec :=
  acts.foldl GoSlice.goAppend GoSlice.nil

/-- One iteration of loop 2 at index `j`: returns the updated
`responseActsDates`, or `none` when the Go code would panic with an
index-out-of-range on `responseActsDates[j-1]`. -/
def datesStep (racts : GoSlice ActivityRec) (dates : GoSlice Int) (j : Nat) :
    Option (GoSlice Int) :=
  match racts.goGet j with
  | none => some dates
  | some a =>
    if j = 0 then
      some (dates.goAppend a.occursAt)
    else
      match dates.goGet (j - 1) with
      | none => none
      | some d =>
        if d ≠ a.occursAt then some (dates.goAppend a.occursAt) else some dates

/-- Loop 2 of the handler, iterating `j = start, start+1, ...` for `fuel`
steps (the handler runs it with `fuel = len(responseActs)` from `j = 0`). -/
def datesLoop (racts : GoSlice ActivityRec) :
    Nat → Nat → GoSlice Int → Option (GoSlice Int)
  | 0, _, dates => some dates
  | fuel + 1, j, dates =>
    match datesStep racts dates j with
    | none => none
    | some dates2 => datesLoop racts fuel (j + 1) dates2

/-- `responseActsDates` as computed by loop 2 (`none` = the scan panics). -/
def buildDates (racts : GoSlice ActivityRec) : Option (GoSlice Int) :=
  datesLoop racts racts.goLen 0 GoSlice.nil

/-- The inner loop of loop 3: `actsInner`, built by appending to a nil slice
every activity of `responseActs` whose `OccursAt` equals the group date. -/
def buildActsInner (racts : GoSlice ActivityRec) (d : Int) : GoSlice ActivityRec :=
  racts.toList.foldl
    (fun s a => if a.occursAt = d then s.goAppend a else s) GoSlice.nil

/-- Loop 3 of the handler: `responseActsFinal` starts nil, is reset to the
empty non-nil slice when no dates were collected, and otherwise one group is
appended per collected date. -/
def buildFinal (racts : GoSlice ActivityRec) (dates : GoSlice Int) :
    GoSlice DateGroup :=
  let init : GoSlice DateGroup :=
    if dates.goLen = 0 then GoSlice.empty else GoSlice.nil
  dates.toList.foldl
    (fun acc d => acc.goAppend { date := d, activities := buildActsInner racts d })
    init

/-- The aggregation performed by `GetTripsTripIDActivities` on the activity
list returned by the store: `none` models the index-out-of-range panic in
loop 2. -/
def aggregateActivities (acts : List ActivityRec) : Option (GoSlice DateGroup) :=
  let racts := buildResponseActs acts
  match buildDates racts with
  | none => none
  | some dates => some (buildFinal racts dates)

/-! ## Persistence gateway and trip-lifecycle handlers

The `pgstore` implementation is not among the sources; only the `store`
interface the handlers consume is.  The gateway is therefore modelled from the
spec as explicit state passing over `StoreState`: `getTrip` / `getParticipant`
return `none` exactly when the row is absent (`pgx.ErrNoRows`), and the
mutating operations rewrite the state.  Infrastructure failures of the plain
gateway calls are not modelled; the invite transaction, whose failure
behaviour is the subject of the spec, takes explicit success flags instead. -/

/-- The durable store: the trips and participants tables. -/
structure StoreState where
  trips : List Trip
  participants : List Participant
  deriving DecidableEq, Repr

/-- Modelled from the spec: gateway `getTrip(id) -> Trip | NotFound`
(`pgstore.Queries.GetTrip` is not among the sources). -/
def getTrip (s : StoreState) (id : Nat) : Option Trip :=
  s.trips.find? (fun t => t.id == id)

/-- Modelled from the spec: gateway `getParticipant(id) -> Participant |
NotFound` (`pgstore.Queries.GetParticipant` is not among the sources). -/
def getParticipant (s : StoreState) (id : Nat) : Option Participant :=
  s.participants.find? (fun p => p.id == id)

/-- Modelled from the spec: gateway `confirmParticipant(id) -> ok | error`
(`pgstore.Queries.ConfirmParticipant` is not among the sources).  It sets the
matching participant's `is_confirmed` flag; an UPDATE matching no row is a
successful no-op.  It never touches the trips table. -/
def confirmParticipant (s : StoreState) (pid : Nat) : StoreState :=
  { s with
    participants := s.participants.map fun p =>
      if p.id = pid then { p with isConfirmed := true } else p }

/-- `pgstore.UpdateTripParams` as assembled by `PutTripsTripID`. -/
structure UpdateTripParams where
  id : Nat
  destination : String
  isConfirmed : Bool
  startsAt : Int
  endsAt : Int
  deriving DecidableEq, Repr

/-- Modelled from the spec: gateway `updateTrip(id, destination, startsAt,
endsAt, isConfirmed) -> ok | error` (`pgstore.Queries.UpdateTrip` is not among
the sources); it rewrites the matching trip row's fields. -/
def updateTrip (s : StoreState) (arg : UpdateTripParams) : StoreState :=
  { s with
    trips := s.trips.map fun t =>
      if t.id = arg.id then
        { t with
          destination := arg.destination
          isConfirmed := arg.isConfirmed
          startsAt := arg.startsAt
          endsAt := arg.endsAt }
      else t }

/-- `pgstore.CreateActivityParams` as assembled by
`PostTripsTripIDActivities`. -/
structure CreateActivityParams where
  tripId : Nat
  title : String
  occursAt : Int
  deriving DecidableEq, Repr

/-- The mutating store calls a handler issues, recorded in order. -/
inductive StoreCall where
  | confirmParticipantCall (id : Nat)
  | updateTripCall (arg : UpdateTripParams)
  | createActivityCall (arg : CreateActivityParams)
  deriving DecidableEq, Repr

/-- The outcome a handler maps to an HTTP response: a 400 with the error
message from the source, a 204, or a 201. -/
inductive ApiResponse where
  | badRequest (message : String)
  | noContent
  | created
  deriving DecidableEq, Repr

/-- A record of the fire-and-forget goroutine's out-of-band error log. -/
inductive LogEvent where
  | mailError (tripId : Nat)
  deriving DecidableEq, Repr

/-- `PatchParticipantsParticipantIDConfirm`: resolve the participant
(400 "participant not found" on `ErrNoRows`), reject with
400 "participant already confirmed" when `IsConfirmed` is already set, and
otherwise call `ConfirmParticipant` and return 204.  The third component
records the mutating store calls issued. -/
def patchParticipantsParticipantIDConfirm (s : StoreState) (pid : Nat) :
    ApiResponse × StoreState × List StoreCall :=
  match getParticipant s pid with
  | none => (.badRequest "participant not found", s, [])
  | some participant =>
    if participant.isConfirmed then
      (.badRequest "participant already confirmed", s, [])
    else
      (.noContent, confirmParticipant s pid, [.confirmParticipantCall pid])

/-- `GetTripsTripIDConfirm`: resolve the trip (400 "trip not found" on
`ErrNoRows`), then call `ConfirmParticipant` with the *trip's* id, spawn the
`SendEmailInvitations` goroutine — whose failure (`mailerOk = false`) is only
logged — and return 204.  The third component is the out-of-band log. -/
def getTripsTripIDConfirm (s : StoreState) (tid : Nat) (mailerOk : Bool) :
    ApiResponse × StoreState × List LogEvent :=
  match getTrip s tid with
  | none => (.badRequest "trip not found", s, [])
  | some _ =>
    let s2 := confirmParticipant s tid
    let logs := if mailerOk then [] else [LogEvent.mailError tid]
    (.noContent, s2, logs)

/-- The decoded `PutTripsTripIDJSONRequestBody`. -/
structure UpdateTripBody where
  destination : String
  startsAt : Int
  endsAt : Int
  deriving DecidableEq, Repr

/-- Modelled from the spec: the `validator.Struct` verdict on the decoded
trip-update body (the generated `internal/api/spec` package with its
validation tags is not among the sources).  Per the spec, an update whose
`endsAt` is earlier than `startsAt` fails validation at this boundary. -/
def validateUpdateTripBody (body : UpdateTripBody) : Bool :=
  decide (body.startsAt ≤ body.endsAt)

/-- `PutTripsTripID`: resolve the trip (400 "trip not found" on `ErrNoRows`),
validate the body (400 "invalid input" on failure), then call `UpdateTrip`
with the body's fields and the trip's current `IsConfirmed`, and return 204.
The third component records the mutating store calls issued. -/
def putTripsTripID (s : StoreState) (tid : Nat) (body : UpdateTripBody) :
    ApiResponse × StoreState × List StoreCall :=
  match getTrip s tid with
  | none => (.badRequest "trip not found", s, [])
  | some trip =>
    if validateUpdateTripBody body then
      let params : UpdateTripParams :=
        { id := trip.id
          destination := body.destination
          isConfirmed := trip.isConfirmed
          startsAt := body.startsAt
          endsAt := body.endsAt }
      (.noContent, updateTrip s params, [.updateTripCall params])
    else
      (.badRequest "invalid input", s, [])

/-- The decoded `spec.CreateActivityRequest` an HTTP client sends. -/
structure CreateActivityRequest where
  title : String
  occursAt : Int
  deriving DecidableEq, Repr

/-- The zero value of `spec.CreateActivityRequest`
(`var body spec.CreateActivityRequest`): empty title, zero `time.Time`. -/
def zeroCreateActivityRequest : CreateActivityRequest :=
  { title := "", occursAt := 0 }

/-- `PostTripsTripIDActivities`: resolve the trip (400 "trip not found" on
`ErrNoRows`), then call `CreateActivity`.  As in the source, the handler
declares `var body spec.CreateActivityRequest` and never decodes the request
body into it, so the params passed to the store come from the zero value; the
actual request body (`requestBody`) is unused. -/
def postTripsTripIDActivities (s : StoreState) (tid : Nat)
    (requestBody : CreateActivityRequest) : ApiResponse × List StoreCall :=
  match getTrip s tid with
  | none => (.badRequest "trip not found", [])
  | some _ =>
    let _ := requestBody
    let body := zeroCreateActivityRequest
    (.created,
      [.createActivityCall
        { tripId := tid, title := body.title, occursAt := body.occursAt }])

/-- The transaction-level events of `PostTripsTripIDInvites`, in order:
`tx.Begin`, the `InviteParticipantsToTrip` insert, `tx.Commit`, and the
deferred `tx.Rollback` (which also runs, as a no-op, after a successful
commit). -/
inductive TxEvent where
  | beginTx
  | insertParticipants (tripId : Nat) (email : String)
  | commitTx
  | rollbackTx
  deriving DecidableEq, Repr

/-- Modelled from the spec: the durable effect of committing the invite
transaction (`pgstore.Queries.InviteParticipantsToTrip` is not among the
sources) — the invited e-mail is added to the trip's roster as an
unconfirmed, non-owner participant with a fresh row id. -/
def addInvitedParticipant (s : StoreState) (tid : Nat) (email : String)
    (newId : Nat) : StoreState :=
  { s with
    participants := s.participants ++
      [{ id := newId, tripId := tid, email := email,
         isConfirmed := false, isOwner := false }] }

/-- `PostTripsTripIDInvites`: resolve the trip, validate the body
(`emailValid` is the injected `validator.Struct` verdict), begin a
transaction with a deferred rollback, insert the participant inside the
transaction, and commit.  `beginOk`, `insertOk`, `commitOk` inject the
outcome of each transactional step; the durable state changes only when the
commit succeeds, since pending inserts die with the rollback.  The third
component is the ordered transaction event trace. -/
def postTripsTripIDInvites (s : StoreState) (tid : Nat) (email : String)
    (emailValid beginOk insertOk commitOk : Bool) (newId : Nat) :
    ApiResponse × StoreState × List TxEvent :=
  match getTrip s tid with
  | none => (.badRequest "trip not found", s, [])
  | some _ =>
    if emailValid = false then
      (.badRequest "invalid input", s, [])
    else if beginOk = false then
      (.badRequest "pgstore: failed to begin tx for PostTripsTripIDInvites",
        s, [])
    else if insertOk = false then
      (.badRequest "pgstore: failed to insert participants for PostTripsTripIDInvites",
        s, [.beginTx, .rollbackTx])
    else if commitOk = false then
      (.badRequest "pgstore: failed to commit tx for PostTripsTripIDInvites",
        s, [.beginTx, .insertParticipants tid email, .rollbackTx])
    else
      (.created, addInvitedParticipant s tid email newId,
        [.beginTx, .insertParticipants tid email, .commitTx, .rollbackTx])

theorem toList_buildResponseActs (acts : List ActivityRec) :
    (buildResponseActs acts).toList = acts := by
  suffices h : ∀ (s : GoSlice ActivityRec),
      (acts.foldl GoSlice.goAppend s).toList = s.toList ++ acts by
    simpa [buildResponseActs, GoSlice.nil, GoSlice.toList] using h GoSlice.nil
  induction acts with
  | nil => intro s; simp
  | cons a t ih =>
    intro s
    simp [List.foldl_cons, ih, GoSlice.toList_goAppend]

/-! ## Sample stores for concrete evaluations -/

/-- An existing, not yet confirmed trip. -/
def tripRecife : Trip :=
  { id := 1, destination := "Recife", startsAt := 0, endsAt := 5,
    isConfirmed := false }

/-- A store holding exactly `tripRecife` and no participants. -/
def storeOneTrip : StoreState := { trips := [tripRecife], participants := [] }

/-- A participant of `tripRecife` who is already confirmed. -/
def confirmedAna : Participant :=
  { id := 5, tripId := 1, email := "ana@example.com", isConfirmed := true,
    isOwner := false }

/-- A store holding `tripRecife` and the already-confirmed `confirmedAna`. -/
def storeConfirmedAna : StoreState :=
  { trips := [tripRecife], participants := [confirmedAna] }

/-! ## Claims -/

/-- C1: the claim fails on the code.  `GetTripsTripIDConfirm` on an existing
unconfirmed trip returns 204 yet never sets the stored trip's `is_confirmed`
flag: it calls `ConfirmParticipant` with the trip's id, which touches only the
participants table, so after the successful call the stored trip record still
has `is_confirmed = false`. -/
theorem trip_confirm_leaves_trip_unconfirmed :
    (getTripsTripIDConfirm storeOneTrip 1 true).1 = ApiResponse.noContent ∧
    getTrip (getTripsTripIDConfirm storeOneTrip 1 true).2.1 1 = some tripRecife ∧
    tripRecife.isConfirmed = false := by decide

/-- C2: the claim fails on the code.  On the activity list
[(A,"x"),(A,"y"),(B,"z")] the date scan of `GetTripsTripIDActivities` reads
`responseActsDates[1]` while that slice still has length 1 (the j = 1
iteration appended nothing because the dates were equal), so the handler
panics with an index out of range instead of returning the two groups
A:[x,y], B:[z]. -/
theorem aggregate_adjacent_duplicate_crashes :
    aggregateActivities
      [{ id := 1, title := "x", occursAt := 10 },
       { id := 2, title := "y", occursAt := 10 },
       { id := 3, title := "z", occursAt := 20 }] = none := by decide

/-- C3 fails as stated: on [(A,"x"),(B,"y"),(A,"z")] the aggregation does not
return the three singleton groups A:[x], B:[y], A:[z]. -/
theorem aggregate_nonadjacent_claim_false :
    aggregateActivities
      [{ id := 1, title := "x", occursAt := 10 },
       { id := 2, title := "y", occursAt := 20 },
       { id := 3, title := "z", occursAt := 10 }] ≠
    some (some
      [{ date := 10, activities := some [{ id := 1, title := "x", occursAt := 10 }] },
       { date := 20, activities := some [{ id := 2, title := "y", occursAt := 20 }] },
       { date := 10, activities := some [{ id := 3, title := "z", occursAt := 10 }] }]) := by
  decide

/-- C3 (amended): on [(A,"x"),(B,"y"),(A,"z")] the aggregation returns three
groups in order A:[x,z], B:[y], A:[x,z] — the inner loop collects every
activity whose date equals the group's date, so x and z each appear in both
groups for date A (two output groups, not exactly one). -/
theorem aggregate_nonadjacent_actual :
    aggregateActivities
      [{ id := 1, title := "x", occursAt := 10 },
       { id := 2, title := "y", occursAt := 20 },
       { id := 3, title := "z", occursAt := 10 }] =
    some (some
      [{ date := 10, activities := some
           [{ id := 1, title := "x", occursAt := 10 },
            { id := 3, title := "z", occursAt := 10 }] },
       { date := 20, activities := some [{ id := 2, title := "y", occursAt := 20 }] },
       { date := 10, activities := some
           [{ id := 1, title := "x", occursAt := 10 },
            { id := 3, title := "z", occursAt := 10 }] }]) := by decide

/-- C4: for every request body, `PostTripsTripIDActivities` on an existing
trip hands the store an activity with empty title and the zero timestamp —
the handler never decodes the request body into the value it passes to
`CreateActivity`. -/
theorem create_activity_ignores_request_body (s : StoreState) (tid : Nat)
    (requestBody : CreateActivityRequest) (t : Trip)
    (hget : getTrip s tid = some t) :
    postTripsTripIDActivities s tid requestBody =
      (ApiResponse.created,
        [StoreCall.createActivityCall
          { tripId := tid, title := "", occursAt := 0 }]) := by
  simp [postTripsTripIDActivities, hget, zeroCreateActivityRequest]

theorem create_activity_ignores_request_body_witness :
    getTrip storeOneTrip 1 = some tripRecife ∧
    postTripsTripIDActivities storeOneTrip 1
        { title := "hiking", occursAt := 3 } =
      (ApiResponse.created,
        [StoreCall.createActivityCall
          { tripId := 1, title := "", occursAt := 0 }]) :=
  ⟨by decide,
   create_activity_ignores_request_body storeOneTrip 1
     { title := "hiking", occursAt := 3 } tripRecife (by decide)⟩

/-- C5: the claim fails on the code.  The date-boundary scan is not in-bounds
on every input: on [(A,"x"),(A,"y"),(B,"z")] the iteration j = 2 reads
`responseActsDates[1]` when that slice has length 1 — an out-of-range access
(first conjunct: that very step panics; second conjunct: the whole scan
yields the panic value). -/
theorem dates_scan_goes_out_of_range :
    datesStep
      (buildResponseActs
        [{ id := 1, title := "x", occursAt := 10 },
         { id := 2, title := "y", occursAt := 10 },
         { id := 3, title := "z", occursAt := 20 }])
      (GoSlice.goAppend GoSlice.nil 10) 2 = none ∧
    buildDates
      (buildResponseActs
        [{ id := 1, title := "x", occursAt := 10 },
         { id := 2, title := "y", occursAt := 10 },
         { id := 3, title := "z", occursAt := 20 }]) = none := by decide

/-- C6: the invite endpoint is all-or-nothing.  When the trip exists, the
body validates and the transaction begins, a failing insert or a failing
commit leaves the durable store unchanged, the deferred rollback runs and no
commit does; a commit failure returns the dedicated commit-failure response,
distinct from the response a validation failure produces. -/
theorem invites_all_or_nothing (s : StoreState) (tid : Nat) (email : String)
    (insertOk commitOk : Bool) (newId : Nat) (t : Trip)
    (hget : getTrip s tid = some t)
    (hfail : insertOk = false ∨ commitOk = false) :
    (postTripsTripIDInvites s tid email true true insertOk commitOk newId).2.1 = s ∧
    TxEvent.rollbackTx ∈
      (postTripsTripIDInvites s tid email true true insertOk commitOk newId).2.2 ∧
    TxEvent.commitTx ∉
      (postTripsTripIDInvites s tid email true true insertOk commitOk newId).2.2 ∧
    (insertOk = true →
      (postTripsTripIDInvites s tid email true true insertOk commitOk newId).1 =
        ApiResponse.badRequest
          "pgstore: failed to commit tx for PostTripsTripIDInvites" ∧
      (postTripsTripIDInvites s tid email true true insertOk commitOk newId).1 ≠
        (postTripsTripIDInvites s tid email false true insertOk commitOk newId).1) := by
  rcases hfail with h | h
  · subst h
    simp [postTripsTripIDInvites, hget]
  · subst h
    cases insertOk <;> simp [postTripsTripIDInvites, hget]

theorem invites_all_or_nothing_witness :
    (postTripsTripIDInvites storeOneTrip 1 "bob@example.com"
        true true true false 9).2.1 = storeOneTrip ∧
    TxEvent.rollbackTx ∈
      (postTripsTripIDInvites storeOneTrip 1 "bob@example.com"
        true true true false 9).2.2 ∧
    TxEvent.commitTx ∉
      (postTripsTripIDInvites storeOneTrip 1 "bob@example.com"
        true true true false 9).2.2 :=
  have h := invites_all_or_nothing storeOneTrip 1 "bob@example.com"
    true false 9 tripRecife (by decide) (Or.inr rfl)
  ⟨h.1, h.2.1, h.2.2.1⟩

/-- C7: confirming an already-confirmed participant returns the
"participant already confirmed" error, leaves the store unchanged, and issues
no mutating store call. -/
theorem participant_confirm_already_confirmed (s : StoreState) (pid : Nat)
    (p : Participant) (hget : getParticipant s pid = some p)
    (hconf : p.isConfirmed = true) :
    patchParticipantsParticipantIDConfirm s pid =
      (ApiResponse.badRequest "participant already confirmed", s, []) := by
  simp [patchParticipantsParticipantIDConfirm, hget, hconf]

theorem participant_confirm_already_confirmed_witness :
    getParticipant storeConfirmedAna 5 = some confirmedAna ∧
    patchParticipantsParticipantIDConfirm storeConfirmedAna 5 =
      (ApiResponse.badRequest "participant already confirmed",
        storeConfirmedAna, []) :=
  ⟨by decide,
   participant_confirm_already_confirmed storeConfirmedAna 5 confirmedAna
     (by decide) (by decide)⟩

/-- C8: an empty activity list aggregates, without panicking, to the
explicitly empty non-nil groups slice (rendered as the JSON empty array, not
as null). -/
theorem aggregate_empty_is_explicit_empty :
    aggregateActivities [] = some GoSlice.empty := by decide

/-- C9: a trip-update whose endsAt is strictly earlier than startsAt fails
validation: the handler returns the validation-failure response, the store is
unchanged, and `UpdateTrip` is never called. -/
theorem put_trip_rejects_inverted_dates (s : StoreState) (tid : Nat)
    (body : UpdateTripBody) (t : Trip) (hget : getTrip s tid = some t)
    (hlt : body.endsAt < body.startsAt) :
    putTripsTripID s tid body =
      (ApiResponse.badRequest "invalid input", s, []) := by
  have hv : validateUpdateTripBody body = false := by
    unfold validateUpdateTripBody
    simp only [decide_eq_false_iff_not]
    omega
  simp [putTripsTripID, hget, hv]

theorem put_trip_rejects_inverted_dates_witness :
    getTrip storeOneTrip 1 = some tripRecife ∧
    ((5 : Int) > 2) ∧
    putTripsTripID storeOneTrip 1
        { destination := "Olinda", startsAt := 5, endsAt := 2 } =
      (ApiResponse.badRequest "invalid input", storeOneTrip, []) :=
  ⟨by decide, by decide,
   put_trip_rejects_inverted_dates storeOneTrip 1
     { destination := "Olinda", startsAt := 5, endsAt := 2 } tripRecife
     (by decide) (by decide)⟩

/-- C10: the confirm operation's result does not depend on the mailer
outcome.  On an existing trip, the run where `SendEmailInvitations` succeeds
and the run where it fails return the same 204 response with the same
resulting store; the failure is visible only in the out-of-band log. -/
theorem trip_confirm_independent_of_mailer (s : StoreState) (tid : Nat)
    (t : Trip) (hget : getTrip s tid = some t) :
    (getTripsTripIDConfirm s tid true).1 =
      (getTripsTripIDConfirm s tid false).1 ∧
    (getTripsTripIDConfirm s tid true).2.1 =
      (getTripsTripIDConfirm s tid false).2.1 ∧
    (getTripsTripIDConfirm s tid true).1 = ApiResponse.noContent ∧
    (getTripsTripIDConfirm s tid true).2.2 = [] ∧
    (getTripsTripIDConfirm s tid false).2.2 = [LogEvent.mailError tid] := by
  simp [getTripsTripIDConfirm, hget]

theorem trip_confirm_independent_of_mailer_witness :
    (getTripsTripIDConfirm storeOneTrip 1 true).1 =
      (getTripsTripIDConfirm storeOneTrip 1 false).1 ∧
    (getTripsTripIDConfirm storeOneTrip 1 true).2.1 =
      (getTripsTripIDConfirm storeOneTrip 1 false).2.1 ∧
    (getTripsTripIDConfirm storeOneTrip 1 true).1 = ApiResponse.noContent ∧
    (getTripsTripIDConfirm storeOneTrip 1 true).2.2 = [] ∧
    (getTripsTripIDConfirm storeOneTrip 1 false).2.2 = [LogEvent.mailError 1] :=
  trip_confirm_independent_of_mailer storeOneTrip 1 tripRecife (by decide)

end NlwJourney
